import Mathlib

set_option maxRecDepth 33554432

/-!
# Canonicalization, fingerprinting and chain-of-custody verification

A shallow embedding of the provenance engine's hashing service
(`canonicalizeJSON`, `sha256`, `computeEventHash`, `computeBatchHash`,
`hashDocument`, `verifyDocumentHash`), its data-model factories
(`createBatch`, `createEvent`, `createDocument`), the in-memory store, and
the provenance service operations (`registerDocument`, `verifyDocument`,
`recordShipment`, `recordReceipt`, `verifyBatchIntegrity`), together with
proofs about the canonical encoder and the verifier.

JavaScript runtime values that can reach the encoder are modelled by
`JsValue`: `vUndef` is the JS value `undefined`, `vNaN` the number `NaN`
and `vFunc` an (opaque) function value; numeric literals are modelled as
integers (decimal rendering of floats is orthogonal to everything proved
here).  A JS function that can return `undefined` is modelled with
`Option`, `none` standing for `undefined`.
-/

inductive JsValue where
  | vNull
  | vUndef
  | vNaN
  | vFunc
  | vBool (b : Bool)
  | vNum (n : Int)
  | vStr (s : String)
  | vArr (items : List JsValue)
  | vObj (fields : List (String × JsValue))

namespace JsValue

/-- `true` exactly on the JS value `undefined`. -/
def isUndef : JsValue → Bool
  | .vUndef => true
  | _ => false

end JsValue

/-- One character of a JS string rendered as `JSON.stringify` renders it. -/
def jsonEscapeChar (c : Char) : String :=
  if c = '"' then "\\\""
  else if c = '\\' then "\\\\"
  else if c = '\n' then "\\n"
  else if c = '\t' then "\\t"
  else if c = '\r' then "\\r"
  else if c.toNat < 32 then
    "\\u00" ++ String.mk [(Nat.toDigits 16 (c.toNat / 16)).headD '0',
                          (Nat.toDigits 16 (c.toNat % 16)).headD '0']
  else String.mk [c]

/-- `JSON.stringify` on a string value: double quotes around escaped chars. -/
def jsonQuote (s : String) : String :=
  "\"" ++ String.join (s.data.map jsonEscapeChar) ++ "\""

/-- `JSON.stringify` on a non-object value.  `undefined` and functions have no
JSON representation: `JSON.stringify` returns the JS value `undefined` there,
modelled as `none`.  `NaN` is serialized as `null`. -/
def jsonStringifyPrim : JsValue → Option String
  | .vNull => some "null"
  | .vUndef => none
  | .vNaN => some "null"
  | .vFunc => none
  | .vBool b => some (if b then "true" else "false")
  | .vNum n => some (toString n)
  | .vStr s => some (jsonQuote s)
  | .vArr _ => none
  | .vObj _ => none

/-- JS string coercion of a possibly-`undefined` string, as it happens in
`JSON.stringify(key) + ':' + canonicalizeJSON(obj[key])`: concatenating with
`undefined` produces the text `undefined`. -/
def jsOutStr : Option String → String
  | some s => s
  | none => "undefined"

/-- Lexicographic comparison of character lists by code point, the order
`Array.prototype.sort()` applies to keys (JS compares UTF-16 code units;
on the basic multilingual plane the two coincide). -/
def charListLe : List Char → List Char → Bool
  | [], _ => true
  | _ :: _, [] => false
  | x :: xs, y :: ys =>
      if x.toNat < y.toNat then true
      else if y.toNat < x.toNat then false
      else charListLe xs ys

theorem charListLe_total : ∀ x y, charListLe x y = true ∨ charListLe y x = true := by
  intro x
  induction x with
  | nil => intro y; left; rfl
  | cons a xs ih =>
    intro y
    cases y with
    | nil => right; rfl
    | cons b ys =>
      simp only [charListLe]
      rcases Nat.lt_trichotomy a.toNat b.toNat with h | h | h
      · left; simp [h]
      · rcases ih ys with h2 | h2 <;> simp [h, h2]
      · right; simp [h, Nat.not_lt.mpr (Nat.le_of_lt h)]

theorem charListLe_trans : ∀ x y z, charListLe x y = true → charListLe y z = true →
    charListLe x z = true := by
  intro x
  induction x with
  | nil => intros; rfl
  | cons a xs ih =>
    intro y z h1 h2
    cases y with
    | nil => simp [charListLe] at h1
    | cons b ys =>
      cases z with
      | nil => simp [charListLe] at h2
      | cons c zs =>
        simp only [charListLe] at h1 h2 ⊢
        split_ifs at h1 h2 ⊢ <;> try omega
        all_goals try rfl
        all_goals exact ih ys zs h1 h2

theorem charListLe_antisymm : ∀ x y, charListLe x y = true → charListLe y x = true → x = y := by
  intro x
  induction x with
  | nil => intro y h1 h2; cases y with
    | nil => rfl
    | cons b ys => simp [charListLe] at h2
  | cons a xs ih =>
    intro y h1 h2
    cases y with
    | nil => simp [charListLe] at h1
    | cons b ys =>
      simp only [charListLe] at h1 h2
      split_ifs at h1 h2 <;> try omega
      have h3 : a.toNat = b.toNat := by omega
      have hab : a = b := Char.eq_of_val_eq (UInt32.ext h3)
      rw [hab, ih ys h1 h2]

/-- String comparison by code points (`a < b`/`a > b` on JS strings). -/
def strLe (a b : String) : Bool := charListLe a.data b.data

theorem strLe_antisymm {a b : String} (h1 : strLe a b = true) (h2 : strLe b a = true) :
    a = b := by
  cases a with
  | mk da =>
    cases b with
    | mk db => exact congrArg String.mk (charListLe_antisymm da db h1 h2)

/-- The order used by `Object.keys(obj).sort()`, transported to key-tagged
entries: compare by key. -/
def keyLe {α : Type _} (a b : String × α) : Prop := strLe a.1 b.1 = true

instance {α : Type _} : DecidableRel (keyLe (α := α)) :=
  fun a b => inferInstanceAs (Decidable (strLe a.1 b.1 = true))

instance {α : Type _} : IsTotal (String × α) keyLe :=
  ⟨fun a b => charListLe_total a.1.data b.1.data⟩

instance {α : Type _} : IsTrans (String × α) keyLe :=
  ⟨fun _ _ _ h h2 => charListLe_trans _ _ _ h h2⟩

/-- `Object.keys(obj).sort()`, carried out on key-tagged entries: a stable
sort of the entries by key. -/
def sortByKey {α : Type _} (l : List (String × α)) : List (String × α) :=
  List.insertionSort keyLe l

theorem sortByKey_perm {α : Type _} (l : List (String × α)) :
    List.Perm (sortByKey l) l :=
  List.perm_insertionSort keyLe l

/-!
## The canonical encoder

From the source (hashing service):

```
export function canonicalizeJSON(obj) {
  if (obj === null || typeof obj !== 'object') {
    return JSON.stringify(obj);
  }
  if (Array.isArray(obj)) {
    return '[' + obj.map(item => canonicalizeJSON(item)).join(',') + ']';
  }
  const sortedKeys = Object.keys(obj).sort();
  const pairs = sortedKeys
    .filter(key => obj[key] !== undefined)
    .map(key => JSON.stringify(key) + ':' + canonicalizeJSON(obj[key]));
  return '\x7b' + pairs.join(',') + '\x7d';
}
```

`canonList` is `obj.map(canonicalizeJSON)` of the array branch (where `join`
renders an `undefined` element as the empty string).  For the object branch,
`canonFields` walks the entries in insertion order, dropping the
`undefined`-valued ones and rendering each kept entry as `"key":value`
tagged with its key, and the result is then sorted by key.  The source
instead sorts the keys first and then filters and renders; the two orders of
operation give the same list because the sort compares only the key, which
rendering does not change, and a JS object cannot hold duplicate keys.
Rendering after sorting would recurse through the sorted list, which is not
structurally smaller; this formulation keeps the recursion structural (and
hence computable by the kernel). -/

mutual

def canonicalizeJSON : JsValue → Option String
  | .vArr items => some ("[" ++ String.intercalate "," (canonList items) ++ "]")
  | .vObj fields =>
      some ("\x7b" ++
        String.intercalate "," ((sortByKey (canonFields fields)).map Prod.snd) ++ "\x7d")
  | v => jsonStringifyPrim v

def canonList : List JsValue → List String
  | [] => []
  | x :: xs => (canonicalizeJSON x).getD "" :: canonList xs

def canonFields : List (String × JsValue) → List (String × String)
  | [] => []
  | (k, v) :: rest =>
      if v.isUndef then canonFields rest
      else (k, jsonQuote k ++ ":" ++ jsOutStr (canonicalizeJSON v)) :: canonFields rest

end

/-- Digest used by the hashing service.  The real implementation delegates to
the crypto library's SHA-256 (`createHash('sha256')`), which is not part of
this repository; it is modelled as a fixed deterministic function from the
input string to a 64-character lowercase hex digest (a concrete stand-in
digest — every property proved below depends only on it being a function of
the input string). -/
def sha256Digest (s : String) : String :=
  let h := s.data.foldl (fun a c => (a * 65599 + c.toNat + 1) % (2 ^ 256)) 7
  let hex := Nat.toDigits 16 h
  String.mk (List.replicate (64 - hex.length) '0' ++ hex)

/-- `sha256(data)` from the hashing service: a string is hashed directly, any
other value is hashed through its canonical encoding (`Buffer` inputs do not
occur in this model).  `hash.update(undefined)` throws, modelled as `none`. -/
def sha256OfValue : JsValue → Option String
  | .vStr s => some (sha256Digest s)
  | v => (canonicalizeJSON v).map sha256Digest

/-- `hashDocument(content)`: document content is a string, hashed directly. -/
def hashDocument (content : String) : String :=
  sha256Digest content

-- Smoke checks for the encoder on concrete values.
example : canonicalizeJSON (.vObj [("b", .vNum 2), ("a", .vNum 1)]) =
    some "\x7b\"a\":1,\"b\":2\x7d" := by decide
example : canonicalizeJSON (.vObj [("b", .vUndef), ("a", .vNull)]) =
    some "\x7b\"a\":null\x7d" := by decide
example : canonicalizeJSON (.vArr [.vNum 1, .vStr "x", .vNull]) =
    some "[1,\"x\",null]" := by decide
example : canonicalizeJSON .vNaN = some "null" := by decide
example : canonicalizeJSON .vFunc = none := by decide

/-!
## Semantic content of a record

`normalizeJs` recursively sorts every object's entries by key: two JS records
have the same semantic content — the same mappings, up to the insertion order
of keys, at every nesting depth — exactly when their normal forms coincide.
`wfKeys` states that every object in the value has duplicate-free keys, which
is automatic for values built by the JS runtime (an object cannot hold the
same key twice). -/

mutual

def normalizeJs : JsValue → JsValue
  | .vArr items => .vArr (normalizeList items)
  | .vObj fields => .vObj (sortByKey (normalizeFields fields))
  | v => v

def normalizeList : List JsValue → List JsValue
  | [] => []
  | x :: xs => normalizeJs x :: normalizeList xs

def normalizeFields : List (String × JsValue) → List (String × JsValue)
  | [] => []
  | (k, v) :: rest => (k, normalizeJs v) :: normalizeFields rest

end

mutual

def wfKeys : JsValue → Bool
  | .vArr items => wfKeysList items
  | .vObj fields => decide ((fields.map Prod.fst).Nodup) && wfKeysFields fields
  | _ => true

def wfKeysList : List JsValue → Bool
  | [] => true
  | x :: xs => wfKeys x && wfKeysList xs

def wfKeysFields : List (String × JsValue) → Bool
  | [] => true
  | (_, v) :: rest => wfKeys v && wfKeysFields rest

end

theorem wfKeysList_mem {l : List JsValue} (h : wfKeysList l = true) {x : JsValue}
    (hx : x ∈ l) : wfKeys x = true := by
  induction l with
  | nil => cases hx
  | cons a as ih =>
    simp only [wfKeysList, Bool.and_eq_true] at h
    rcases hx with _ | hx
    · exact h.1
    · exact ih h.2 (by assumption)

theorem wfKeysFields_mem {l : List (String × JsValue)} (h : wfKeysFields l = true)
    {kv : String × JsValue} (hkv : kv ∈ l) : wfKeys kv.2 = true := by
  induction l with
  | nil => cases hkv
  | cons a as ih =>
    cases a with
    | mk k v =>
      simp only [wfKeysFields, Bool.and_eq_true] at h
      rcases hkv with _ | hkv
      · exact h.1
      · exact ih h.2 (by assumption)

theorem isUndef_normalize (v : JsValue) : (normalizeJs v).isUndef = v.isUndef := by
  cases v <;> rfl

theorem canonList_normalize (l : List JsValue)
    (ih : ∀ x ∈ l, canonicalizeJSON (normalizeJs x) = canonicalizeJSON x) :
    canonList (normalizeList l) = canonList l := by
  induction l with
  | nil => rfl
  | cons x xs ihl =>
    simp only [normalizeList, canonList]
    rw [ih x (List.mem_cons_self x xs), ihl (fun y hy => ih y (List.mem_cons_of_mem x hy))]

theorem canonFields_normalize (l : List (String × JsValue))
    (ih : ∀ kv ∈ l, canonicalizeJSON (normalizeJs kv.2) = canonicalizeJSON kv.2) :
    canonFields (normalizeFields l) = canonFields l := by
  induction l with
  | nil => rfl
  | cons kv rest ihl =>
    cases kv with
    | mk k v =>
      have hv := ih (k, v) (List.mem_cons_self _ rest)
      have hrest := ihl (fun y hy => ih y (List.mem_cons_of_mem _ hy))
      simp only [normalizeFields, canonFields, isUndef_normalize]
      by_cases hu : v.isUndef
      · simp [hu, hrest]
      · simp [hu, hrest, hv]

/-- `canonFields` is the rendering map over the non-`undefined` entries. -/
theorem canonFields_eq (l : List (String × JsValue)) :
    canonFields l = (l.filter (fun kv => !(kv.2.isUndef))).map
      (fun kv => (kv.1, jsonQuote kv.1 ++ ":" ++ jsOutStr (canonicalizeJSON kv.2))) := by
  induction l with
  | nil => rfl
  | cons kv rest ih =>
    cases kv with
    | mk k v =>
      by_cases hu : v.isUndef <;> simp [canonFields, List.filter_cons, hu, ih]

theorem sortByKey_sorted {α : Type _} (l : List (String × α)) :
    List.Sorted keyLe (sortByKey l) :=
  List.sorted_insertionSort keyLe l

/-- Sorting by key is insensitive to the order of the input entries, as long
as the keys are duplicate-free. -/
theorem sortByKey_eq_of_perm {α : Type _} {A B : List (String × α)}
    (h : List.Perm A B) (hnd : (B.map Prod.fst).Nodup) : sortByKey A = sortByKey B := by
  have hndB : List.Pairwise (fun a b : String × α => a.1 ≠ b.1) B :=
    (List.pairwise_map).mp hnd
  have hndA : List.Pairwise (fun a b : String × α => a.1 ≠ b.1) A :=
    (h.pairwise_iff (fun hab => (Ne.symm hab))).mpr hndB
  have hpermAB : List.Perm (sortByKey A) (sortByKey B) :=
    ((sortByKey_perm A).trans h).trans (sortByKey_perm B).symm
  have hsA : List.Pairwise (fun a b : String × α => keyLe a b ∧ a.1 ≠ b.1) (sortByKey A) :=
    (sortByKey_sorted A).and
      (((sortByKey_perm A).pairwise_iff (fun hab => (Ne.symm hab))).mpr hndA)
  have hsB : List.Pairwise (fun a b : String × α => keyLe a b ∧ a.1 ≠ b.1) (sortByKey B) :=
    (sortByKey_sorted B).and
      (((sortByKey_perm B).pairwise_iff (fun hab => (Ne.symm hab))).mpr hndB)
  haveI : IsAntisymm (String × α) (fun a b => keyLe a b ∧ a.1 ≠ b.1) :=
    ⟨fun a b h1 h2 => absurd (strLe_antisymm h1.1 h2.1) h1.2⟩
  exact List.eq_of_perm_of_sorted hpermAB hsA hsB

/-- Core invariance argument: encoding a value after recursively sorting its
objects' entries gives the same canonical string (fueled induction on the
size of the value). -/
theorem canon_normalize_aux : ∀ (n : Nat) (v : JsValue), sizeOf v ≤ n →
    wfKeys v = true → canonicalizeJSON (normalizeJs v) = canonicalizeJSON v := by
  intro n
  induction n with
  | zero =>
    intro v hsz _
    exfalso
    cases v <;> simp at hsz
  | succ n ih =>
    intro v hsz hwf
    cases v with
    | vNull => rfl
    | vUndef => rfl
    | vNaN => rfl
    | vFunc => rfl
    | vBool b => rfl
    | vNum m => rfl
    | vStr s => rfl
    | vArr items =>
      have hm : ∀ x ∈ items, canonicalizeJSON (normalizeJs x) = canonicalizeJSON x := by
        intro x hx
        have hlt : sizeOf x < sizeOf items := List.sizeOf_lt_of_mem hx
        have hsz' : sizeOf (JsValue.vArr items) = 1 + sizeOf items := by simp
        refine ih x (by omega) (wfKeysList_mem ?_ hx)
        simpa [wfKeys] using hwf
      simp only [normalizeJs, canonicalizeJSON]
      rw [canonList_normalize items hm]
    | vObj fields =>
      simp only [wfKeys, Bool.and_eq_true, decide_eq_true_eq] at hwf
      have hm : ∀ kv ∈ fields, canonicalizeJSON (normalizeJs kv.2) = canonicalizeJSON kv.2 := by
        intro kv hkv
        have hlt : sizeOf kv < sizeOf fields := List.sizeOf_lt_of_mem hkv
        have hlt2 : sizeOf kv.2 < sizeOf kv := by cases kv; simp
        have hsz' : sizeOf (JsValue.vObj fields) = 1 + sizeOf fields := by simp
        exact ih kv.2 (by omega) (wfKeysFields_mem hwf.2 hkv)
      -- the entry lists rendered on each side are permutations with the same keys
      have hA : List.Perm (canonFields (sortByKey (normalizeFields fields)))
          (canonFields (normalizeFields fields)) := by
        rw [canonFields_eq, canonFields_eq]
        exact ((sortByKey_perm (normalizeFields fields)).filter _).map _
      have hAB : canonFields (normalizeFields fields) = canonFields fields :=
        canonFields_normalize fields hm
      have hndB : ((canonFields fields).map Prod.fst).Nodup := by
        rw [canonFields_eq]
        have hsub : List.Sublist (fields.filter (fun kv => !(kv.2.isUndef))) fields :=
          List.filter_sublist fields
        have : List.Sublist
            (((fields.filter (fun kv => !(kv.2.isUndef))).map Prod.fst)) (fields.map Prod.fst) :=
          hsub.map Prod.fst
        have hnd := hwf.1.sublist this
        simpa [List.map_map, Function.comp] using hnd
      have : sortByKey (canonFields (sortByKey (normalizeFields fields))) =
          sortByKey (canonFields fields) :=
        sortByKey_eq_of_perm (hA.trans (by rw [hAB])) hndB
      simp only [normalizeJs, canonicalizeJSON]
      rw [this]

/-- Encoding is invariant under recursively sorting object entries. -/
theorem canonicalizeJSON_normalize (v : JsValue) (hwf : wfKeys v = true) :
    canonicalizeJSON (normalizeJs v) = canonicalizeJSON v :=
  canon_normalize_aux (sizeOf v) v le_rfl hwf

theorem normalize_eq_vStr {w : JsValue} {s : String} (h : normalizeJs w = .vStr s) :
    w = .vStr s := by
  cases w <;> simp_all [normalizeJs]

/-- C1: for every structured record, the fingerprint is a deterministic
function of the record alone (computing it twice yields identical output),
and permuting the insertion order of mapping keys at any nesting depth —
i.e. passing any record with the same normal form — changes neither the
canonical encoding nor the fingerprint. -/
theorem c1_fingerprint_deterministic_key_order_invariant
    (v w : JsValue) (hv : wfKeys v = true) (hw : wfKeys w = true)
    (h : normalizeJs v = normalizeJs w) :
    sha256OfValue v = sha256OfValue v ∧
    canonicalizeJSON v = canonicalizeJSON w ∧
    sha256OfValue v = sha256OfValue w := by
  have hcanon : canonicalizeJSON v = canonicalizeJSON w := by
    rw [← canonicalizeJSON_normalize v hv, h, canonicalizeJSON_normalize w hw]
  refine ⟨rfl, hcanon, ?_⟩
  cases v <;> cases w <;> simp_all [sha256OfValue, normalizeJs]

/-- Witness for C1: a two-level record with keys permuted at both depths has
the same canonical encoding and the same fingerprint. -/
theorem c1_fingerprint_witness :
    wfKeys (.vObj [("b", .vNum 1), ("a", .vObj [("y", .vStr "u"), ("x", .vNull)])]) = true ∧
    canonicalizeJSON (.vObj [("b", .vNum 1), ("a", .vObj [("y", .vStr "u"), ("x", .vNull)])]) =
      canonicalizeJSON (.vObj [("a", .vObj [("x", .vNull), ("y", .vStr "u")]), ("b", .vNum 1)]) ∧
    sha256OfValue (.vObj [("b", .vNum 1), ("a", .vObj [("y", .vStr "u"), ("x", .vNull)])]) =
      sha256OfValue (.vObj [("a", .vObj [("x", .vNull), ("y", .vStr "u")]), ("b", .vNum 1)]) :=
  ⟨rfl,
   (c1_fingerprint_deterministic_key_order_invariant _ _ (by rfl) (by rfl) (by rfl)).2.1,
   (c1_fingerprint_deterministic_key_order_invariant _ _ (by rfl) (by rfl) (by rfl)).2.2⟩

/-!
## Data model

Structures mirror the objects built by the model factories
(`src/models/index.js`).  `uuidv4()` and `new Date().toISOString()` are
effects of the runtime, passed in as explicit `freshId`/`nowIso` arguments;
timestamps are carried as ISO-8601 strings (the `instanceof Date`
normalization branch of the hash payloads is the identity here). -/

structure Quantity where
  weight : Int
  unit : String
deriving DecidableEq, Repr

structure Assay where
  value : Int
  unit : Option String
deriving DecidableEq, Repr

inductive BatchStatus where
  | created
  | inTransit
  | received
  | closed
  | dispute
deriving DecidableEq, Repr

structure Event where
  eventId : String
  eventType : String
  eventTimestamp : String
  batchId : String
  fromPartyId : Option String
  toPartyId : Option String
  fromFacilityId : Option String
  toFacilityId : Option String
  quantity : Option Quantity
  references : List String
  notes : Option String
  eventPayloadHash : Option String
  onChainTxHash : Option String
deriving DecidableEq, Repr

structure Batch where
  batchId : String
  externalReferenceNumber : String
  commodityType : String
  originFacilityId : String
  ownerPartyId : String
  creationTimestamp : String
  quantity : Quantity
  declaredAssay : Option Assay
  status : BatchStatus
  parentBatchIds : List String
  notes : Option String
  documentIds : List String
  eventIds : List String
deriving DecidableEq, Repr

/-- `x || null` on an optional string: JS `||` replaces a falsy operand
(absent, `null`, or the empty string) by `null`. -/
def jsOrNull : Option String → JsValue
  | none => .vNull
  | some s => if s = "" then .vNull else .vStr s

def quantityToJs (q : Quantity) : JsValue :=
  .vObj [("weight", .vNum q.weight), ("unit", .vStr q.unit)]

/-- `event.quantity || null`: an object is always truthy. -/
def optQuantityToJs : Option Quantity → JsValue
  | none => .vNull
  | some q => quantityToJs q

/-- `batch.declaredAssay || null`. -/
def optAssayToJs : Option Assay → JsValue
  | none => .vNull
  | some a =>
      .vObj [("value", .vNum a.value),
             ("unit", match a.unit with | none => .vNull | some u => .vStr u)]

/-- The payload object of `computeEventHash`, with the fields in source
insertion order.  `event.references || []` is the identity here because the
factory always sets `references` to an array (an empty array is truthy). -/
def eventHashPayload (e : Event) : List (String × JsValue) :=
  [("eventId", .vStr e.eventId),
   ("eventType", .vStr e.eventType),
   ("eventTimestamp", .vStr e.eventTimestamp),
   ("batchId", .vStr e.batchId),
   ("fromPartyId", jsOrNull e.fromPartyId),
   ("toPartyId", jsOrNull e.toPartyId),
   ("fromFacilityId", jsOrNull e.fromFacilityId),
   ("toFacilityId", jsOrNull e.toFacilityId),
   ("quantity", optQuantityToJs e.quantity),
   ("references", .vArr (e.references.map JsValue.vStr))]

/-- `computeEventHash(event) = sha256(payload)`; the payload is an object, so
its canonical encoding is always defined (`getD` never falls back). -/
def computeEventHash (e : Event) : String :=
  sha256Digest ((canonicalizeJSON (.vObj (eventHashPayload e))).getD "")

/-- The payload object of `computeBatchHash`, in source insertion order. -/
def batchHashPayload (b : Batch) : List (String × JsValue) :=
  [("batchId", .vStr b.batchId),
   ("externalReferenceNumber", .vStr b.externalReferenceNumber),
   ("commodityType", .vStr b.commodityType),
   ("originFacilityId", .vStr b.originFacilityId),
   ("ownerPartyId", .vStr b.ownerPartyId),
   ("creationTimestamp", .vStr b.creationTimestamp),
   ("quantity", quantityToJs b.quantity),
   ("declaredAssay", optAssayToJs b.declaredAssay)]

def computeBatchHash (b : Batch) : String :=
  sha256Digest ((canonicalizeJSON (.vObj (batchHashPayload b))).getD "")

/-- `verifyDocumentHash(content, storedHash)`: recompute and compare with
strict equality (`===` against a missing stored hash is false). -/
def verifyDocumentHash (content : String) (storedHash : Option String) :
    Bool × String × Option String :=
  let computedHash := hashDocument content
  (some computedHash == storedHash, computedHash, storedHash)

/-!
## Model factories (from `src/models/index.js`)
-/

/-- JS truthiness of an optional number: absent, `null`, `0` (and `NaN`) are
falsy. -/
def numTruthy : Option Int → Bool
  | none => false
  | some n => n != 0

/-- Arguments of `createEvent`, with the destructuring defaults. -/
structure EventInput where
  eventType : String
  batchId : String
  fromPartyId : Option String := none
  toPartyId : Option String := none
  fromFacilityId : Option String := none
  toFacilityId : Option String := none
  weight : Option Int := none
  weightUnit : String := "kg"
  documentIds : List String := []
  notes : Option String := none

/-- `createEvent`: `quantity: weight ? { weight, unit: weightUnit } : null`. -/
def createEvent (inp : EventInput) (freshId nowIso : String) : Event :=
  { eventId := freshId
    eventType := inp.eventType
    eventTimestamp := nowIso
    batchId := inp.batchId
    fromPartyId := inp.fromPartyId
    toPartyId := inp.toPartyId
    fromFacilityId := inp.fromFacilityId
    toFacilityId := inp.toFacilityId
    quantity := if numTruthy inp.weight then some ⟨inp.weight.getD 0, inp.weightUnit⟩ else none
    references := inp.documentIds
    notes := inp.notes
    eventPayloadHash := none
    onChainTxHash := none }

/-- Arguments of `createBatch`, with the destructuring defaults. -/
structure BatchInput where
  externalReferenceNumber : String
  commodityType : String
  originFacilityId : String
  ownerPartyId : String
  weight : Int
  weightUnit : String := "kg"
  declaredAssayValue : Option Int := none
  declaredAssayUnit : Option String := none
  notes : Option String := none

/-- `createBatch`: `declaredAssay: declaredAssayValue ? {...} : null`. -/
def createBatch (inp : BatchInput) (freshId nowIso : String) : Batch :=
  { batchId := freshId
    externalReferenceNumber := inp.externalReferenceNumber
    commodityType := inp.commodityType
    originFacilityId := inp.originFacilityId
    ownerPartyId := inp.ownerPartyId
    creationTimestamp := nowIso
    quantity := ⟨inp.weight, inp.weightUnit⟩
    declaredAssay :=
      if numTruthy inp.declaredAssayValue then
        some ⟨inp.declaredAssayValue.getD 0, inp.declaredAssayUnit⟩
      else none
    status := .created
    parentBatchIds := []
    notes := inp.notes
    documentIds := []
    eventIds := [] }

/-- C8: attaching an anchor reference after creation does not change an
Event's fingerprint — the payload of `computeEventHash` reads neither
`onChainTxHash` nor `notes`, so any anchor value hashes like `null`. -/
theorem c8_anchor_attachment_preserves_fingerprint (e : Event) (tx : Option String) :
    computeEventHash { e with onChainTxHash := tx } =
      computeEventHash { e with onChainTxHash := none } :=
  rfl

/-- C6: the Event fingerprint payload has exactly the ten fields
`eventId, eventType, eventTimestamp` (the spec's `timestamp`), `batchId`,
`fromPartyId, toPartyId, fromFacilityId, toFacilityId, quantity, references`
(the spec's `documentIds`); when the six optional fields are absent they are
normalized to an explicit `null`, and no payload field is ever `undefined`,
so the encoder's default omission rule drops none of them. -/
theorem c6_event_payload_normalizes_absent_to_null (e : Event)
    (h1 : e.fromPartyId = none) (h2 : e.toPartyId = none)
    (h3 : e.fromFacilityId = none) (h4 : e.toFacilityId = none)
    (h5 : e.quantity = none) :
    (eventHashPayload e).map Prod.fst =
      ["eventId", "eventType", "eventTimestamp", "batchId", "fromPartyId",
       "toPartyId", "fromFacilityId", "toFacilityId", "quantity", "references"] ∧
    (eventHashPayload e).filter (fun kv => !(kv.2.isUndef)) = eventHashPayload e ∧
    ((eventHashPayload e).lookup "fromPartyId" = some .vNull ∧
     (eventHashPayload e).lookup "toPartyId" = some .vNull ∧
     (eventHashPayload e).lookup "fromFacilityId" = some .vNull ∧
     (eventHashPayload e).lookup "toFacilityId" = some .vNull ∧
     (eventHashPayload e).lookup "quantity" = some .vNull) ∧
    computeEventHash e = sha256Digest ((canonicalizeJSON (.vObj (eventHashPayload e))).getD "") := by
  cases e
  subst h1 h2 h3 h4 h5
  exact ⟨rfl, rfl, ⟨rfl, rfl, rfl, rfl, rfl⟩, rfl⟩

set_option maxRecDepth 8192 in
/-- Witness for C6: on a concrete Event with no optional fields supplied, the
canonical payload encoding carries all six explicit `null`s. -/
theorem c6_event_payload_witness :
    ((eventHashPayload
        { eventId := "e1", eventType := "Create",
          eventTimestamp := "2024-01-01T00:00:00.000Z", batchId := "b1",
          fromPartyId := none, toPartyId := none, fromFacilityId := none,
          toFacilityId := none, quantity := none, references := ["d1"],
          notes := none, eventPayloadHash := none, onChainTxHash := none }).lookup "quantity" =
      some .vNull) ∧
    canonicalizeJSON (.vObj (eventHashPayload
        { eventId := "e1", eventType := "Create",
          eventTimestamp := "2024-01-01T00:00:00.000Z", batchId := "b1",
          fromPartyId := none, toPartyId := none, fromFacilityId := none,
          toFacilityId := none, quantity := none, references := ["d1"],
          notes := none, eventPayloadHash := none, onChainTxHash := none })) =
      some ("\x7b\"batchId\":\"b1\",\"eventId\":\"e1\"," ++
        "\"eventTimestamp\":\"2024-01-01T00:00:00.000Z\",\"eventType\":\"Create\"," ++
        "\"fromFacilityId\":null,\"fromPartyId\":null,\"quantity\":null," ++
        "\"references\":[\"d1\"],\"toFacilityId\":null,\"toPartyId\":null\x7d") :=
  ⟨(c6_event_payload_normalizes_absent_to_null _ rfl rfl rfl rfl rfl).2.2.1.2.2.2.2,
   by decide⟩

/-- C10: a zero numeric value at the public constructors is indistinguishable
from an absent one: `createEvent` with weight `0` produces a `null` quantity
and `createBatch` with declared assay value `0` produces a `null`
`declaredAssay`, so both enter the fingerprint payloads as explicit `null`. -/
theorem c10_zero_weight_and_assay_treated_as_absent
    (ei : EventInput) (bi : BatchInput) (id1 ts1 id2 ts2 : String)
    (he : ei.weight = some 0) (hb : bi.declaredAssayValue = some 0) :
    (createEvent ei id1 ts1).quantity = none ∧
    (createBatch bi id2 ts2).declaredAssay = none ∧
    optQuantityToJs (createEvent ei id1 ts1).quantity = .vNull ∧
    optAssayToJs (createBatch bi id2 ts2).declaredAssay = .vNull := by
  simp [createEvent, createBatch, numTruthy, he, hb, optQuantityToJs, optAssayToJs]

/-- Witness for C10 at concrete constructor inputs with zero weight/assay. -/
theorem c10_zero_weight_witness :
    (createEvent { eventType := "Create", batchId := "b1", weight := some 0 }
        "e1" "2024-01-01T00:00:00.000Z").quantity = none ∧
    (createBatch { externalReferenceNumber := "X-1", commodityType := "Gold",
                   originFacilityId := "f1", ownerPartyId := "p1", weight := 10,
                   declaredAssayValue := some 0 }
        "b1" "2024-01-01T00:00:00.000Z").declaredAssay = none :=
  ⟨(c10_zero_weight_and_assay_treated_as_absent _
      { externalReferenceNumber := "X-1", commodityType := "Gold",
        originFacilityId := "f1", ownerPartyId := "p1", weight := 10,
        declaredAssayValue := some 0 } "e1" "2024-01-01T00:00:00.000Z"
      "b1" "2024-01-01T00:00:00.000Z" (by rfl) (by rfl)).1,
   (c10_zero_weight_and_assay_treated_as_absent
      { eventType := "Create", batchId := "b1", weight := some 0 } _
      "e1" "2024-01-01T00:00:00.000Z"
      "b1" "2024-01-01T00:00:00.000Z" (by rfl) (by rfl)).2.1⟩

/-- Counterexample to C7 as stated: on `NaN` the canonical encoder does not
fail with an `EncodingError` — it silently produces the encoding `null`, and
the fingerprint hasher happily digests that encoding. -/
theorem c7_counterexample_nan_silently_encodes_as_null :
    canonicalizeJSON .vNaN = some "null" ∧
    sha256OfValue .vNaN = some (sha256Digest "null") :=
  ⟨rfl, rfl⟩

/-- C7 (amended): the encoder has no error channel at all.  A `NaN` is
silently encoded as `null`; a function value yields the JS value `undefined`
instead of an encoding; a function nested in an object is rendered as the
non-JSON text `"f":undefined`, and one nested in an array as the empty
string — never an `EncodingError`. -/
theorem c7_amended_encoder_never_fails :
    canonicalizeJSON .vNaN = some "null" ∧
    canonicalizeJSON .vFunc = none ∧
    canonicalizeJSON (.vObj [("f", .vFunc)]) = some "\x7b\"f\":undefined\x7d" ∧
    canonicalizeJSON (.vArr [.vFunc]) = some "[]" :=
  ⟨rfl, rfl, rfl, rfl⟩

/-!
## Store and provenance service

The in-memory database keeps entities in JS `Map`s; a `Map` preserves
insertion order, `set` replaces in place when the key exists and appends
otherwise.  The anchoring service singleton runs in simulation mode: the
recorded simulated transactions are modelled by the list `anchored` of their
transaction hashes, passed to the verifier; `uuidv4()`, timestamps and the
randomly generated transaction hash of a simulated anchor are effects passed
in as arguments. -/

structure Document where
  documentId : String
  documentType : String
  fileName : String
  storageUri : Option String
  sha256Hash : Option String
  issuerPartyId : Option String
  issuedDate : Option String
  relatedBatchId : Option String
  relatedEventId : Option String
  confidentialityLevel : String
  createdAt : String
deriving DecidableEq, Repr

/-- The `documentData` argument of `registerDocument`: the fields
`createDocument` destructures, plus the transient `content` field. -/
structure DocumentInput where
  documentType : String
  fileName : String
  storageUri : Option String := none
  sha256Hash : Option String := none
  issuerPartyId : Option String := none
  issuedDate : Option String := none
  relatedBatchId : Option String := none
  relatedEventId : Option String := none
  confidentialityLevel : String := "Restricted"
  content : Option String := none

/-- `createDocument`: note the produced Document has no content field. -/
def createDocument (inp : DocumentInput) (freshId nowIso : String) : Document :=
  { documentId := freshId
    documentType := inp.documentType
    fileName := inp.fileName
    storageUri := inp.storageUri
    sha256Hash := inp.sha256Hash
    issuerPartyId := inp.issuerPartyId
    issuedDate := inp.issuedDate
    relatedBatchId := inp.relatedBatchId
    relatedEventId := inp.relatedEventId
    confidentialityLevel := inp.confidentialityLevel
    createdAt := nowIso }

structure DB where
  batches : List Batch := []
  events : List Event := []
  documents : List Document := []
deriving DecidableEq, Repr

/-- `Map.set` keyed by a string id: replace in place when the key exists,
append otherwise. -/
def mapSet {α : Type _} (key : α → String) (l : List α) (x : α) : List α :=
  if l.any (fun y => key y == key x) then l.map (fun y => if key y == key x then x else y)
  else l ++ [x]

def getBatch (db : DB) (batchId : String) : Option Batch :=
  db.batches.find? (fun b => b.batchId == batchId)

def getDocument (db : DB) (documentId : String) : Option Document :=
  db.documents.find? (fun d => d.documentId == documentId)

/-- JS truthiness of an optional string: absent, `null` and `""` are falsy. -/
def strTruthy : Option String → Bool
  | none => false
  | some s => s != ""

/-- `x || d` for strings. -/
def jsOrStr (o : Option String) (d : String) : String :=
  match o with
  | none => d
  | some s => if s = "" then d else s

/-- `x || d` for numbers (`0` is falsy). -/
def jsOrNum (o : Option Int) (d : Int) : Int :=
  match o with
  | none => d
  | some n => if n = 0 then d else n

/-- Ascending-timestamp order of `getEventsByBatch`
(`new Date(a.eventTimestamp) - new Date(b.eventTimestamp)`): fixed-format
ISO-8601 UTC timestamps compare chronologically as strings. -/
def evtLe (a b : Event) : Prop := strLe a.eventTimestamp b.eventTimestamp = true

instance : DecidableRel evtLe :=
  fun a b => inferInstanceAs (Decidable (strLe a.eventTimestamp b.eventTimestamp = true))

/-- `getEventsByBatch`: the batch's events, sorted by timestamp (JS `sort` is
stable, as is insertion sort). -/
def getEventsByBatch (db : DB) (batchId : String) : List Event :=
  List.insertionSort evtLe (db.events.filter (fun e => e.batchId == batchId))

/-- `registerDocument`: when content is supplied and no hash was precomputed,
hash the content and drop it; then create and store the document. -/
def registerDocument (inp : DocumentInput) (freshId nowIso : String) (db : DB) :
    Document × DB :=
  let inp2 :=
    if strTruthy inp.content && !(strTruthy inp.sha256Hash) then
      { inp with sha256Hash := some (hashDocument (inp.content.getD "")), content := none }
    else inp
  let doc := createDocument inp2 freshId nowIso
  (doc, { db with documents := mapSet (fun d => d.documentId) db.documents doc })

structure DocVerifyResult where
  valid : Bool
  error : Option String
  computedHash : Option String
  storedHash : Option String
deriving DecidableEq, Repr

/-- `verifyDocument(documentId, content)`. -/
def verifyDocument (db : DB) (documentId : String) (content : String) : DocVerifyResult :=
  match getDocument db documentId with
  | none =>
      { valid := false, error := some "Document not found",
        computedHash := none, storedHash := none }
  | some doc =>
      let r := verifyDocumentHash content doc.sha256Hash
      { valid := r.1, error := none, computedHash := some r.2.1, storedHash := r.2.2 }

structure ShipmentData where
  toPartyId : Option String := none
  fromFacilityId : Option String := none
  toFacilityId : Option String := none
  documentIds : Option (List String) := none
  notes : Option String := none

structure ReceiptData where
  receiverPartyId : String
  facilityId : Option String := none
  receivedWeight : Option Int := none
  documentIds : Option (List String) := none
  notes : Option String := none

/-- `recordShipment` (`provenance.js`): no check of the batch's current
status anywhere — the event is created, fingerprinted, anchored (the
simulated transaction hash is the `txHash` argument), the status is set to
`InTransit` and both records are stored. -/
def recordShipment (db : DB) (batchId : String) (sd : ShipmentData)
    (freshId nowIso txHash : String) : Except String (Event × Batch × DB) :=
  match getBatch db batchId with
  | none => .error ("Batch " ++ batchId ++ " not found")
  | some batch =>
      let event0 := createEvent
        { eventType := "Ship"
          batchId := batchId
          fromPartyId := some batch.ownerPartyId
          toPartyId := sd.toPartyId
          fromFacilityId := some (jsOrStr sd.fromFacilityId batch.originFacilityId)
          toFacilityId := sd.toFacilityId
          weight := some batch.quantity.weight
          weightUnit := batch.quantity.unit
          documentIds := sd.documentIds.getD []
          notes := some (jsOrStr sd.notes "Shipment dispatched") } freshId nowIso
      let event1 := { event0 with eventPayloadHash := some (computeEventHash event0) }
      let event2 := { event1 with onChainTxHash := some txHash }
      let batch2 := { batch with status := .inTransit,
                                 eventIds := batch.eventIds ++ [event2.eventId] }
      .ok (event2, batch2,
        { db with batches := mapSet (fun b => b.batchId) db.batches batch2,
                  events := mapSet (fun e => e.eventId) db.events event2 })

/-- `recordReceipt` (`provenance.js`): again no status check — the Receive
event is recorded whatever the batch's current status, the status is set to
`Received` and ownership moves to the receiver. -/
def recordReceipt (db : DB) (batchId : String) (rd : ReceiptData)
    (freshId nowIso txHash : String) : Except String (Event × Batch × DB) :=
  match getBatch db batchId with
  | none => .error ("Batch " ++ batchId ++ " not found")
  | some batch =>
      let event0 := createEvent
        { eventType := "Receive"
          batchId := batchId
          fromPartyId := some batch.ownerPartyId
          toPartyId := some rd.receiverPartyId
          fromFacilityId := none
          toFacilityId := rd.facilityId
          weight := some (jsOrNum rd.receivedWeight batch.quantity.weight)
          weightUnit := batch.quantity.unit
          documentIds := rd.documentIds.getD []
          notes := some (jsOrStr rd.notes "Shipment received and acknowledged") } freshId nowIso
      let event1 := { event0 with eventPayloadHash := some (computeEventHash event0) }
      let event2 := { event1 with onChainTxHash := some txHash }
      let batch2 := { batch with status := .received,
                                 ownerPartyId := rd.receiverPartyId,
                                 eventIds := batch.eventIds ++ [event2.eventId] }
      .ok (event2, batch2,
        { db with batches := mapSet (fun b => b.batchId) db.batches batch2,
                  events := mapSet (fun e => e.eventId) db.events event2 })

structure EventCheck where
  eventId : String
  eventType : String
  storedHash : Option String
  computedHash : String
  hashMatch : Bool
  anchorValid : Option Bool
deriving DecidableEq, Repr

structure AnchorCheck where
  eventId : String
  txHash : String
  verified : Bool
deriving DecidableEq, Repr

structure VerifyResult where
  batchId : String
  overallValid : Bool
  batchHashValid : Bool
  events : List EventCheck
  anchorVerifications : List AnchorCheck
deriving DecidableEq, Repr

/-- `verifyAnchor` in simulation mode: verified iff the transaction hash is
among the recorded simulated transactions (`anchored`). -/
def verifyAnchor (anchored : List String) (txHash : String) : Bool :=
  anchored.contains txHash

/-- Truthiness test `if (event.onChainTxHash)`: present and nonempty. -/
def truthyTx : Option String → Option String
  | none => none
  | some s => if s = "" then none else some s

/-- The event loop of `verifyBatchIntegrity`, in one pass: per-event results,
anchor verifications for events carrying a truthy `onChainTxHash`, and the
running `overallValid` flag, cleared by any hash mismatch (and by nothing
else). -/
def checkEvents (anchored : List String) :
    List Event → Bool × List EventCheck × List AnchorCheck
  | [] => (true, [], [])
  | e :: rest =>
      let computedHash := computeEventHash e
      let hashMatch := some computedHash == e.eventPayloadHash
      let res := checkEvents anchored rest
      (hashMatch && res.1,
       { eventId := e.eventId, eventType := e.eventType,
         storedHash := e.eventPayloadHash, computedHash := computedHash,
         hashMatch := hashMatch,
         anchorValid := (truthyTx e.onChainTxHash).map (verifyAnchor anchored) } :: res.2.1,
       (match truthyTx e.onChainTxHash with
        | some tx => [{ eventId := e.eventId, txHash := tx,
                        verified := verifyAnchor anchored tx }]
        | none => []) ++ res.2.2)

/-- `verifyBatchIntegrity`: the batch hash is recomputed but — exactly as in
the source — never compared to anything, and `batchHashValid` is initialized
`true` and never updated; `overallValid` reflects only the event hash
comparisons. -/
def verifyBatchIntegrity (db : DB) (anchored : List String) (batchId : String) :
    Except String VerifyResult :=
  match getBatch db batchId with
  | none => .error "Batch not found"
  | some batch =>
      let events := getEventsByBatch db batchId
      let _computedBatchHash := computeBatchHash batch
      let res := checkEvents anchored events
      .ok { batchId := batchId, overallValid := res.1, batchHashValid := true,
            events := res.2.1, anchorVerifications := res.2.2 }

theorem mem_mapSet_self {α : Type _} (key : α → String) (l : List α) (x : α) :
    x ∈ mapSet key l x := by
  unfold mapSet
  split
  · rename_i h
    obtain ⟨y, hy, hky⟩ := List.any_eq_true.mp h
    exact List.mem_map.mpr ⟨y, hy, by rw [if_pos hky]⟩
  · exact List.mem_append.mpr (Or.inr (List.mem_singleton.mpr rfl))

/-- `Map.set` followed by a lookup with the same key finds the new value. -/
theorem find?_mapSet_of_key_eq {α : Type _} (key : α → String) (l : List α) (x : α)
    (p : α → Bool) (hp : ∀ y, p y = (key y == key x)) :
    (mapSet key l x).find? p = some x := by
  have hpx : p x = true := by rw [hp x]; exact beq_self_eq_true (key x)
  unfold mapSet
  by_cases h : l.any (fun y => key y == key x) = true
  · rw [if_pos h]
    induction l with
    | nil => simp at h
    | cons a as ih =>
      rw [List.map_cons]
      by_cases hka : (key a == key x) = true
      · rw [if_pos hka]
        exact List.find?_cons_of_pos _ hpx
      · have has : as.any (fun y => key y == key x) = true := by
          rcases (List.any_eq_true.mp h) with ⟨y, hy, hky⟩
          rcases List.mem_cons.mp hy with rfl | hy2
          · exact absurd hky hka
          · exact List.any_eq_true.mpr ⟨y, hy2, hky⟩
        have hpa : p a = false := by
          rw [hp a]
          exact Bool.not_eq_true _ ▸ hka
        rw [if_neg hka, List.find?_cons_of_neg _ (by rw [hpa]; exact Bool.false_ne_true)]
        exact ih has
  · rw [if_neg h]
    have hall : ∀ y ∈ l, ¬ ((key y == key x) = true) :=
      fun y hy hky => h (List.any_eq_true.mpr ⟨y, hy, hky⟩)
    have hnone : l.find? p = none := by
      rw [List.find?_eq_none]
      intro y hy
      rw [hp y]
      exact hall y hy
    rw [List.find?_append, hnone, Option.none_or]
    exact List.find?_cons_of_pos _ hpx

/-- `recordReceipt` succeeds for any existing batch, whatever its current
status: the event is persisted and fingerprinted, the batch ends `Received`,
and the updated batch is what a later lookup returns. -/
theorem recordReceipt_ok (db : DB) (batchId : String) (b : Batch) (rd : ReceiptData)
    (freshId nowIso txHash : String) (hb : getBatch db batchId = some b) :
    ∃ ev b2 db2, recordReceipt db batchId rd freshId nowIso txHash = .ok (ev, b2, db2) ∧
      b2.status = .received ∧ ev.eventType = "Receive" ∧
      ev.eventPayloadHash = some (computeEventHash ev) ∧ ev ∈ db2.events ∧
      getBatch db2 batchId = some b2 := by
  have hb2 : db.batches.find? (fun b3 => b3.batchId == batchId) = some b := hb
  have hpb := List.find?_some hb2
  have hbid : b.batchId = batchId := eq_of_beq hpb
  unfold recordReceipt
  rw [hb]
  refine ⟨_, _, _, rfl, rfl, rfl, rfl, ?_, ?_⟩
  · exact mem_mapSet_self _ _ _
  · show List.find? _ (mapSet (fun b3 => b3.batchId) db.batches _) = _
    refine find?_mapSet_of_key_eq _ _ _ _ (fun y => ?_)
    show (y.batchId == batchId) = (y.batchId == b.batchId)
    rw [hbid]

/-- `recordShipment` succeeds for any existing batch, whatever its current
status, and leaves it `InTransit`. -/
theorem recordShipment_ok (db : DB) (batchId : String) (b : Batch) (sd : ShipmentData)
    (freshId nowIso txHash : String) (hb : getBatch db batchId = some b) :
    ∃ ev b2 db2, recordShipment db batchId sd freshId nowIso txHash = .ok (ev, b2, db2) ∧
      b2.status = .inTransit ∧ ev.eventType = "Ship" ∧
      ev.eventPayloadHash = some (computeEventHash ev) ∧ ev ∈ db2.events ∧
      getBatch db2 batchId = some b2 := by
  have hb2 : db.batches.find? (fun b3 => b3.batchId == batchId) = some b := hb
  have hpb := List.find?_some hb2
  have hbid : b.batchId = batchId := eq_of_beq hpb
  unfold recordShipment
  rw [hb]
  refine ⟨_, _, _, rfl, rfl, rfl, rfl, ?_, ?_⟩
  · exact mem_mapSet_self _ _ _
  · show List.find? _ (mapSet (fun b3 => b3.batchId) db.batches _) = _
    refine find?_mapSet_of_key_eq _ _ _ _ (fun y => ?_)
    show (y.batchId == batchId) = (y.batchId == b.batchId)
    rw [hbid]

/-- Shared concrete fixtures for the verifier and event-recording claims. -/
def batch0 : Batch :=
  { batchId := "b1", externalReferenceNumber := "X-1", commodityType := "Gold",
    originFacilityId := "f1", ownerPartyId := "p1",
    creationTimestamp := "2024-01-01T00:00:00.000Z", quantity := ⟨25, "kg"⟩,
    declaredAssay := none, status := .created, parentBatchIds := [],
    notes := none, documentIds := [], eventIds := [] }

def batchTampered : Batch := { batch0 with commodityType := "Silver" }

/-- Counterexample to C2 as stated: on a batch still in `Created` status,
`recordReceipt` does not fail with `InvalidTransition` — it succeeds, the
event is persisted (the store grows to one event) and fingerprinted
(`eventPayloadHash` is set), and the batch status becomes `Received`. -/
theorem c2_counterexample_receive_succeeds_in_created_status :
    (recordReceipt { batches := [batch0] } "b1"
        { receiverPartyId := "p2", facilityId := some "f2" }
        "e9" "2024-01-05T00:00:00.000Z" "0xccc").toOption.map
      (fun r => (r.2.1.status, r.2.2.events.length, r.1.eventPayloadHash.isSome,
                 r.1.eventType)) =
      some (.received, 1, true, "Receive") := by decide

/-- C2 (amended): the event-recording paths enforce no status state machine —
there is no `InvalidTransition` anywhere.  For a batch in any current status
(in particular still `Created`), appending a Receive event succeeds, is
persisted and fingerprinted, and leaves the status `Received`; appending
Ship then Receive also succeeds, passing through `InTransit` and ending
`Received`. -/
theorem c2_amended_no_transition_enforcement
    (db : DB) (batchId : String) (b : Batch) (rd : ReceiptData) (sd : ShipmentData)
    (id1 ts1 tx1 id2 ts2 tx2 : String) (hb : getBatch db batchId = some b) :
    (∃ ev b2 db2, recordReceipt db batchId rd id1 ts1 tx1 = .ok (ev, b2, db2) ∧
        b2.status = .received ∧ ev.eventType = "Receive" ∧
        ev.eventPayloadHash = some (computeEventHash ev) ∧ ev ∈ db2.events) ∧
    (∃ ev b2 db2 ev3 b3 db3,
        recordShipment db batchId sd id2 ts2 tx2 = .ok (ev, b2, db2) ∧
        b2.status = .inTransit ∧
        recordReceipt db2 batchId rd id1 ts1 tx1 = .ok (ev3, b3, db3) ∧
        b3.status = .received) := by
  obtain ⟨ev, b2, db2, hr, hst, hty, hhash, hmem, _⟩ :=
    recordReceipt_ok db batchId b rd id1 ts1 tx1 hb
  obtain ⟨sv, sb2, sdb2, hs, hsst, _, _, _, hsget⟩ :=
    recordShipment_ok db batchId b sd id2 ts2 tx2 hb
  obtain ⟨ev3, b3, db3, hr3, hst3, _, _, _, _⟩ :=
    recordReceipt_ok sdb2 batchId sb2 rd id1 ts1 tx1 hsget
  exact ⟨⟨ev, b2, db2, hr, hst, hty, hhash, hmem⟩,
         ⟨sv, sb2, sdb2, ev3, b3, db3, hs, hsst, hr3, hst3⟩⟩

/-- Witness for C2 (amended) on a concrete store holding one `Created`
batch. -/
theorem c2_amended_witness :
    (∃ ev b2 db2, recordReceipt { batches := [batch0] } "b1"
        { receiverPartyId := "p2" } "e9" "2024-01-05T00:00:00.000Z" "0xccc" =
          .ok (ev, b2, db2) ∧
        b2.status = .received ∧ ev.eventType = "Receive" ∧
        ev.eventPayloadHash = some (computeEventHash ev) ∧ ev ∈ db2.events) ∧
    (∃ ev b2 db2 ev3 b3 db3,
        recordShipment { batches := [batch0] } "b1"
          { toPartyId := some "p2" } "e8" "2024-01-04T00:00:00.000Z" "0xbbb" =
          .ok (ev, b2, db2) ∧
        b2.status = .inTransit ∧
        recordReceipt db2 "b1" { receiverPartyId := "p2" }
          "e9" "2024-01-05T00:00:00.000Z" "0xccc" = .ok (ev3, b3, db3) ∧
        b3.status = .received) :=
  c2_amended_no_transition_enforcement { batches := [batch0] } "b1" batch0
    { receiverPartyId := "p2" } { toPartyId := some "p2" }
    "e9" "2024-01-05T00:00:00.000Z" "0xccc"
    "e8" "2024-01-04T00:00:00.000Z" "0xbbb" (by rfl)

/-- C3 is a code bug: `verifyBatchIntegrity` computes `computedBatchHash` and
then never compares it to anything; the result's `batchHashValid` is
initialized `true` and never updated, and there is no stored batch
fingerprint to compare against.  Concretely: after tampering with the
`commodityType` of a stored batch, the recomputed batch fingerprint differs
from the fingerprint of the original batch, yet the verifier reports
`batchHashValid = true` and `overallValid = true`. -/
theorem c3_tampered_batch_reported_valid :
    computeBatchHash batchTampered ≠ computeBatchHash batch0 ∧
    verifyBatchIntegrity { batches := [batchTampered] } [] "b1" =
      .ok { batchId := "b1", overallValid := true, batchHashValid := true,
            events := [], anchorVerifications := [] } :=
  ⟨by decide, rfl⟩

theorem checkEvents_fst (anchored : List String) (es : List Event) :
    (checkEvents anchored es).1 =
      es.all (fun e => some (computeEventHash e) == e.eventPayloadHash) := by
  induction es with
  | nil => rfl
  | cons e rest ih => simp [checkEvents, ih]

theorem checkEvents_snd (anchored : List String) (es : List Event) :
    (checkEvents anchored es).2.1 = es.map (fun e =>
      { eventId := e.eventId, eventType := e.eventType,
        storedHash := e.eventPayloadHash, computedHash := computeEventHash e,
        hashMatch := some (computeEventHash e) == e.eventPayloadHash,
        anchorValid := (truthyTx e.onChainTxHash).map (verifyAnchor anchored) }) := by
  induction es with
  | nil => rfl
  | cons e rest ih => simp [checkEvents, ih]

/-- For an existing batch the verifier returns the structured result built
from the event loop (and a `batchHashValid` that is always `true`). -/
theorem verifyBatchIntegrity_ok (db : DB) (anchored : List String) (batchId : String)
    (b : Batch) (hb : getBatch db batchId = some b) :
    verifyBatchIntegrity db anchored batchId = .ok
      { batchId := batchId,
        overallValid := (checkEvents anchored (getEventsByBatch db batchId)).1,
        batchHashValid := true,
        events := (checkEvents anchored (getEventsByBatch db batchId)).2.1,
        anchorVerifications := (checkEvents anchored (getEventsByBatch db batchId)).2.2 } := by
  unfold verifyBatchIntegrity
  rw [hb]

/-- C4: for every existing Batch the verifier recomputes every stored Event's
fingerprint from its fields and reports, per event, `hashMatch =
(recomputed fingerprint equals stored fingerprint)`, and `overallValid` is
the conjunction of the per-event matches — so mutating exactly one stored
Event flips exactly that event's `hashMatch` and clears `overallValid`. -/
theorem c4_verify_reports_per_event_hash_matches
    (db : DB) (anchored : List String) (batchId : String) (b : Batch)
    (hb : getBatch db batchId = some b) :
    ∃ r, verifyBatchIntegrity db anchored batchId = .ok r ∧
      r.events.map (fun c => c.hashMatch) =
        (getEventsByBatch db batchId).map
          (fun e => some (computeEventHash e) == e.eventPayloadHash) ∧
      (∀ c ∈ r.events, c.hashMatch = (some c.computedHash == c.storedHash)) ∧
      r.overallValid = (getEventsByBatch db batchId).all
        (fun e => some (computeEventHash e) == e.eventPayloadHash) := by
  refine ⟨_, verifyBatchIntegrity_ok db anchored batchId b hb, ?_, ?_, ?_⟩
  · show (checkEvents anchored (getEventsByBatch db batchId)).2.1.map _ = _
    rw [checkEvents_snd, List.map_map]
    rfl
  · intro c hc
    have hc2 : c ∈ (checkEvents anchored (getEventsByBatch db batchId)).2.1 := hc
    rw [checkEvents_snd] at hc2
    obtain ⟨e, _, rfl⟩ := List.mem_map.mp hc2
    rfl
  · exact checkEvents_fst anchored (getEventsByBatch db batchId)

/-- Fixture: a legitimately fingerprinted event of `batch0`. -/
def evBase (i ts : String) : Event :=
  { eventId := i, eventType := "Ship", eventTimestamp := ts, batchId := "b1",
    fromPartyId := some "p1", toPartyId := some "p2", fromFacilityId := none,
    toFacilityId := none, quantity := some ⟨25, "kg"⟩, references := [],
    notes := none, eventPayloadHash := none, onChainTxHash := some "0xaaa" }

def evOk (i ts : String) : Event :=
  { evBase i ts with eventPayloadHash := some (computeEventHash (evBase i ts)) }

/-- Fixture: an event whose immutable `quantity` field was mutated after it
was fingerprinted (simulated storage corruption). -/
def evMutated (i ts : String) : Event :=
  { evOk i ts with quantity := some ⟨999, "kg"⟩ }

def dbTampered : DB :=
  { batches := [batch0],
    events := [evOk "e1" "2024-01-01T00:00:00.000Z",
               evMutated "e2" "2024-01-02T00:00:00.000Z",
               evOk "e3" "2024-01-03T00:00:00.000Z"] }

/-- Witness for C4: of three stored events with exactly the middle one
mutated after fingerprinting, verification marks exactly that event
`hashMatch = false`, keeps the others `true`, and reports
`overallValid = false`. -/
theorem c4_verify_witness :
    ∃ r, verifyBatchIntegrity dbTampered [] "b1" = .ok r ∧
      r.events.map (fun c => c.hashMatch) = [true, false, true] ∧
      r.overallValid = false := by
  obtain ⟨r, hr, hmap, _, hov⟩ :=
    c4_verify_reports_per_event_hash_matches dbTampered [] "b1" batch0 (by rfl)
  refine ⟨r, hr, ?_, ?_⟩
  · rw [hmap]; decide
  · rw [hov]; decide

/-- C5: anchor verification outcomes never affect `overallValid`.  If every
stored Event fingerprint matches its recomputation then the verifier reports
`overallValid = true` for every possible anchor store — in particular when
some event's anchor check comes back unconfirmed (`verified = false`) — and
each per-event `hashMatch` stays `true`; only content-fingerprint mismatches
can clear `overallValid`. -/
theorem c5_anchor_failures_never_affect_overall
    (db : DB) (anchored : List String) (batchId : String) (b : Batch)
    (hb : getBatch db batchId = some b)
    (hok : ∀ e ∈ getEventsByBatch db batchId,
      e.eventPayloadHash = some (computeEventHash e))
    (hunconf : ∃ e ∈ getEventsByBatch db batchId, ∃ tx,
      truthyTx e.onChainTxHash = some tx ∧ verifyAnchor anchored tx = false) :
    ∃ r, verifyBatchIntegrity db anchored batchId = .ok r ∧
      r.overallValid = true ∧ (∀ c ∈ r.events, c.hashMatch = true) := by
  refine ⟨_, verifyBatchIntegrity_ok db anchored batchId b hb, ?_, ?_⟩
  · show (checkEvents anchored (getEventsByBatch db batchId)).1 = true
    rw [checkEvents_fst, List.all_eq_true]
    intro e he
    rw [hok e he]
    exact beq_self_eq_true _
  · intro c hc
    have hc2 : c ∈ (checkEvents anchored (getEventsByBatch db batchId)).2.1 := hc
    rw [checkEvents_snd] at hc2
    obtain ⟨e, he, rfl⟩ := List.mem_map.mp hc2
    show (some (computeEventHash e) == e.eventPayloadHash) = true
    rw [hok e he]
    exact beq_self_eq_true _

def dbAnchored : DB :=
  { batches := [batch0], events := [evOk "e1" "2024-01-01T00:00:00.000Z"] }

/-- Witness for C5: a single event with a correct fingerprint whose recorded
transaction hash is absent from the anchor store (its anchor check is
unconfirmed) still verifies with `overallValid = true`. -/
theorem c5_anchor_witness :
    ∃ r, verifyBatchIntegrity dbAnchored [] "b1" = .ok r ∧
      r.overallValid = true ∧ (∀ c ∈ r.events, c.hashMatch = true) :=
  c5_anchor_failures_never_affect_overall dbAnchored [] "b1" batch0 (by rfl)
    (by decide)
    ⟨evOk "e1" "2024-01-01T00:00:00.000Z", by decide, "0xaaa", by rfl, by rfl⟩

/-- Counterexample to C9 as stated: registering a document with content `""`
(a perfectly valid content value, but falsy in JS) takes the no-content
branch — no hash is computed and stored, and verifying the document against
that same content afterwards returns `valid = false`. -/
theorem c9_counterexample_empty_content_not_hashed :
    ((registerDocument { documentType := "Other", fileName := "f.pdf",
                         content := some "" }
        "d1" "2024-01-01T00:00:00.000Z" {}).1.sha256Hash = none) ∧
    ((verifyDocument (registerDocument { documentType := "Other", fileName := "f.pdf",
                                         content := some "" }
          "d1" "2024-01-01T00:00:00.000Z" {}).2
        "d1" "").valid = false) :=
  ⟨rfl, rfl⟩

/-- C9 (amended): for every document registered with nonempty content and no
precomputed hash, the stored record carries `sha256Hash = hashDocument
content` (a stored Document has no content field at all), verifying it
against the same content returns `valid = true`, and against any content
with a different hash returns `valid = false`.  (Registering with empty
content is treated as contentless: no hash is computed.) -/
theorem c9_document_fingerprint_roundtrip
    (inp : DocumentInput) (freshId nowIso : String) (db : DB) (c : String)
    (hc : inp.content = some c) (hne : c ≠ "") (hh : inp.sha256Hash = none) :
    ((registerDocument inp freshId nowIso db).1.sha256Hash = some (hashDocument c)) ∧
    ((verifyDocument (registerDocument inp freshId nowIso db).2
        (registerDocument inp freshId nowIso db).1.documentId c).valid = true) ∧
    (∀ c2, hashDocument c2 ≠ hashDocument c →
      (verifyDocument (registerDocument inp freshId nowIso db).2
        (registerDocument inp freshId nowIso db).1.documentId c2).valid = false) := by
  have hdoc : getDocument (registerDocument inp freshId nowIso db).2
      (registerDocument inp freshId nowIso db).1.documentId =
      some (registerDocument inp freshId nowIso db).1 := by
    show List.find? _ (mapSet (fun d => d.documentId) db.documents _) = _
    exact find?_mapSet_of_key_eq _ _ _ _ (fun y => rfl)
  have hcb : strTruthy inp.content = true := by
    rw [hc]
    simpa [strTruthy] using hne
  have hhb : strTruthy inp.sha256Hash = false := by rw [hh]; rfl
  have hsha : (registerDocument inp freshId nowIso db).1.sha256Hash =
      some (hashDocument c) := by
    unfold registerDocument
    rw [hcb, hhb]
    simp [createDocument, hc]
  refine ⟨hsha, ?_, ?_⟩
  · unfold verifyDocument
    rw [hdoc]
    show (verifyDocumentHash c _).1 = true
    unfold verifyDocumentHash
    rw [hsha]
    exact beq_self_eq_true _
  · intro c2 hd
    unfold verifyDocument
    rw [hdoc]
    show (verifyDocumentHash c2 _).1 = false
    unfold verifyDocumentHash
    rw [hsha]
    show (some (hashDocument c2) == some (hashDocument c)) = false
    exact beq_eq_false_iff_ne.mpr (fun h => hd (Option.some.inj h))

/-- Witness for C9 on a concrete registration with content `"hello"`. -/
theorem c9_document_roundtrip_witness :
    ((registerDocument { documentType := "AssayReport", fileName := "a.pdf",
                         content := some "hello" }
        "d1" "2024-01-01T00:00:00.000Z" {}).1.sha256Hash =
      some (hashDocument "hello")) ∧
    ((verifyDocument (registerDocument { documentType := "AssayReport", fileName := "a.pdf",
                                         content := some "hello" }
          "d1" "2024-01-01T00:00:00.000Z" {}).2
        (registerDocument { documentType := "AssayReport", fileName := "a.pdf",
                            content := some "hello" }
          "d1" "2024-01-01T00:00:00.000Z" {}).1.documentId
        "hello").valid = true) ∧
    ((verifyDocument (registerDocument { documentType := "AssayReport", fileName := "a.pdf",
                                         content := some "hello" }
          "d1" "2024-01-01T00:00:00.000Z" {}).2
        (registerDocument { documentType := "AssayReport", fileName := "a.pdf",
                            content := some "hello" }
          "d1" "2024-01-01T00:00:00.000Z" {}).1.documentId
        "x").valid = false) := by
  obtain ⟨h1, h2, h3⟩ := c9_document_fingerprint_roundtrip
    { documentType := "AssayReport", fileName := "a.pdf", content := some "hello" }
    "d1" "2024-01-01T00:00:00.000Z" {} "hello" (by rfl) (by decide) (by rfl)
  exact ⟨h1, h2, h3 "x" (by decide)⟩
